import Mathlib

/-!
# Verification of the TransFLUENCE DAW-project converter

Shallow embedding of the repository's core pipeline:
* `core/transproj.py` — the intermediate project model,
* `converters/plugin_mapper.py` — device/parameter mapping tables,
* `converters/plugin_state_generator.py` — binary plugin-state blob builders,
* `writers/flstudio_writer.py` — the byte-exact FLP event-stream writer,
* `parsers/ableton_parser.py` — the clip-collection part of the XML parser.

Python `float` values are modelled as rationals (`ℚ`); Python `int(x)`
(truncation toward zero) is `pyInt`; byte strings are `List ℕ` where every
entry denotes one byte (callers keep values in `0..255`, as `bytearray`
would otherwise raise).  The writer's tagged-event byte stream is modelled
one event per `data.append(tag); payload` pair of the source, keeping the
source's numeric tag for each constructor (`Event.tag`).
-/

namespace TransFluence

/-- Python `int(x)` on a float: truncation toward zero. -/
def pyInt (q : ℚ) : ℤ := if q < 0 then ⌈q⌉ else ⌊q⌋

/-- A truncated value stored into a `bytearray` slot (callers stay in 0..255). -/
def pyByte (q : ℚ) : ℕ := (pyInt q).toNat

/-- `struct.pack('<H', n)`: two little-endian bytes (pack raises outside `0..2^16-1`). -/
def le16 (n : ℕ) : List ℕ := [n % 256, n / 256 % 256]

/-- `struct.pack('<I', n)`: four little-endian bytes (pack raises outside `0..2^32-1`). -/
def le32 (n : ℕ) : List ℕ := [n % 256, n / 256 % 256, n / 65536 % 256, n / 16777216 % 256]

/-- UTF-8 bytes of a string, as numbers. -/
def utf8Bytes (s : String) : List ℕ := s.toUTF8.toList.map (fun b => b.toNat)

/-- Abstraction of `struct.pack('<f', v)`: the four bytes of the IEEE-754
binary32 encoding of `v`.  No claim below depends on the byte values of a
packed float, only on their count, so the bit pattern is abstracted. -/
def packF32 (_ : ℚ) : List ℕ := [0, 0, 0, 0]

/-! ## Data model (`core/transproj.py`) -/

/-- `Note` dataclass: a single MIDI note. -/
structure Note where
  position : ℚ
  duration : ℚ
  key : ℕ
  velocity : ℚ
deriving DecidableEq, Repr

/-- `Note.to_ticks`: `(int(self.position * ppq), int(self.duration * ppq))`. -/
def Note.to_ticks (n : Note) (ppq : ℕ) : ℤ × ℤ :=
  (pyInt (n.position * ppq), pyInt (n.duration * ppq))

/-- `Clip` dataclass. -/
structure Clip where
  name : String
  start : ℚ
  duration : ℚ
  notes : List Note := []
  audio_path : String := ""
  is_midi : Bool := true
  scene_index : Option ℕ := none
deriving DecidableEq, Repr

/-- `Clip.is_session_clip`. -/
def Clip.is_session_clip (c : Clip) : Bool := c.scene_index.isSome

/-- `Plugin` dataclass; `parameters` keeps the Python dict's insertion order. -/
structure Plugin where
  name : String
  manufacturer : String := "unknown"
  is_instrument : Bool := false
  device_type : Option String := none
  parameters : List (String × ℚ) := []
deriving DecidableEq, Repr

/-- `DrumPad` dataclass. -/
structure DrumPad where
  index : ℕ
  name : String
  sample_path : String
  midi_note : ℕ := 36
  volume : ℚ := 1
  pan : ℚ := 0
deriving DecidableEq, Repr

/-- `Rack` dataclass. -/
structure Rack where
  name : String
  rack_type : Option String := none
  plugins : List Plugin := []
  drum_pads : List DrumPad := []
deriving DecidableEq, Repr

/-- `Rack.is_drum_rack`: a rack is a drum rack iff it holds at least one pad. -/
def Rack.is_drum_rack (r : Rack) : Bool := r.drum_pads.length > 0

/-- `Track` dataclass. -/
structure Track where
  name : String
  color : ℕ × ℕ × ℕ := (128, 128, 128)
  volume : ℚ := 1
  pan : ℚ := 0
  muted : Bool := false
  solo : Bool := false
  clips : List Clip := []
  instrument : Option Plugin := none
  effects : List Plugin := []
  racks : List Rack := []
deriving DecidableEq, Repr

/-- `Track.has_midi`. -/
def Track.has_midi (t : Track) : Bool := t.clips.any (fun c => c.is_midi)

/-- `Track.has_audio`. -/
def Track.has_audio (t : Track) : Bool := t.clips.any (fun c => !c.is_midi)

/-- `TransProj` dataclass: the universal project. -/
structure TransProj where
  name : String := "Untitled"
  tempo : ℚ := 120
  ppq : ℕ := 96
  tracks : List Track := []
  ableton_version : String := ""
  is_session_view : Bool := false
deriving DecidableEq, Repr

/-- `TransProj.total_clips`. -/
def TransProj.total_clips (p : TransProj) : ℕ :=
  (p.tracks.map (fun t => t.clips.length)).sum

/-- `TransProj.total_notes`. -/
def TransProj.total_notes (p : TransProj) : ℕ :=
  (p.tracks.map (fun t => (t.clips.map (fun c => c.notes.length)).sum)).sum

/-! ## Mapping layer (`converters/plugin_mapper.py`) -/

/-- `ABLETON_TO_FL_INSTRUMENTS` table. -/
def ABLETON_TO_FL_INSTRUMENTS : List (String × String) :=
  [("OriginalSimpler", "Sampler"),
   ("MultiSampler", "DirectWave"),
   ("Operator", "3xOsc"),
   ("Analog", "Sytrus"),
   ("Electric", "3xOsc"),
   ("Collision", "FPC"),
   ("Tension", "Sytrus"),
   ("Wavetable", "Harmor"),
   ("DrumSynth", "FPC"),
   ("InstrumentGroupDevice", "Patcher")]

/-- `ABLETON_TO_FL_EFFECTS` table. -/
def ABLETON_TO_FL_EFFECTS : List (String × String) :=
  [("AutoFilter", "Fruity Love Philter"),
   ("AutoPan", "Fruity Stereo Enhancer"),
   ("BeatRepeat", "Fruity Slicer"),
   ("Cabinet", "Fruity Guitar Amp"),
   ("Chorus", "Fruity Chorus"),
   ("Compressor", "Fruity Compressor"),
   ("Delay", "Fruity Delay 3"),
   ("Distortion", "Fruity Fast Dist"),
   ("Echo", "Fruity Delay 3"),
   ("Eq8", "Fruity Parametric EQ 2"),
   ("EQ Eight", "Fruity Parametric EQ 2"),
   ("Erosion", "Fruity Bitcrusher"),
   ("FilterDelay", "Fruity Delay 3"),
   ("Flanger", "Fruity Flanger"),
   ("GlueCompressor", "Fruity Limiter"),
   ("Glue Compressor", "Fruity Limiter"),
   ("GrainDelay", "Fruity Granulizer"),
   ("Limiter", "Fruity Limiter"),
   ("Looper", "Fruity Slicer"),
   ("Overdrive", "Fruity Fast Dist"),
   ("Phaser", "Fruity Phaser"),
   ("PingPongDelay", "Fruity Delay 3"),
   ("Redux", "Fruity Bitcrusher"),
   ("Reverb", "Fruity Reeverb 2"),
   ("Saturator", "Fruity Waveshaper"),
   ("SimpleDelay", "Fruity Delay 3"),
   ("Utility", "Fruity Balance"),
   ("Vocoder", "Vocodex"),
   ("DrumBuss", "Maximus"),
   ("Drum Buss", "Maximus"),
   ("Roar", "Distructor"),
   ("AudioEffectGroupDevice", "Patcher")]

/-- `ABLETON_TO_FL_DRUMS` table. -/
def ABLETON_TO_FL_DRUMS : List (String × String) :=
  [("DrumGroupDevice", "FPC"), ("DrumSynth", "FPC")]

/-- `PARAMETER_MAPPINGS` table (insertion order of the source dict; the
duplicate `DecayTime` key of the source dict literal resolves, as in Python,
to the later value `Decay` at the position of the first occurrence). -/
def PARAMETER_MAPPINGS : List (String × String) :=
  [("Volume", "Volume"), ("Level", "Level"), ("Gain", "Gain"), ("Output", "Out"),
   ("FilterFreq", "CutOff"), ("Frequency", "Frequency"), ("Cutoff", "Cutoff"),
   ("FilterRes", "Resonance"), ("Resonance", "Resonance"), ("FilterType", "Type"),
   ("Attack", "ATT"), ("AttackTime", "ATT"), ("Decay", "DEC"),
   ("DecayTime", "Decay"), ("Sustain", "SUS"), ("SustainLevel", "SUS"),
   ("Release", "REL"), ("ReleaseTime", "REL"),
   ("LfoRate", "Speed"), ("LfoAmount", "Depth"), ("LfoWaveform", "Shape"),
   ("DryWet", "Mix"), ("Mix", "Mix"), ("Blend", "Mix"),
   ("Feedback", "Feedback"), ("FeedbackAmount", "Feedback"),
   ("Rate", "Rate"), ("Speed", "Speed"), ("Depth", "Depth"),
   ("Amount", "Amount"), ("Intensity", "Mod"),
   ("DelayTime", "Time"), ("Time", "Time"), ("DelayFeedback", "Feedback"),
   ("Sync", "Sync"),
   ("RoomSize", "Size"), ("Size", "Size"),
   ("Damping", "Damp"), ("HighDamp", "Damp"), ("PreDelay", "PreDelay"),
   ("Threshold", "Threshold"), ("Ratio", "Ratio"), ("Knee", "Knee"),
   ("MakeupGain", "Gain"),
   ("Freq", "Freq"), ("Q", "Q"), ("BandGain", "Gain"),
   ("Drive", "Drive"), ("Bias", "Bias"), ("Shape", "Shape")]

/-- `PARAMETER_RANGES` table: name → ((src_min, src_max), (dst_min, dst_max)). -/
def PARAMETER_RANGES : List (String × ((ℚ × ℚ) × (ℚ × ℚ))) :=
  [("Volume", ((0, 1), (0, 100))),
   ("Pan", ((-1, 1), (0, 100))),
   ("FilterFreq", ((20, 20000), (0, 100))),
   ("Resonance", ((0, 1), (0, 100))),
   ("DryWet", ((0, 1), (0, 100))),
   ("Attack", ((0, 5), (0, 100))),
   ("Decay", ((0, 5), (0, 100))),
   ("Sustain", ((0, 1), (0, 100))),
   ("Release", ((0, 5), (0, 100)))]

/-- Association-list lookup mirroring Python `dict` membership and indexing. -/
def tableLookup {α : Type} (t : List (String × α)) (k : String) : Option α :=
  match t with
  | [] => none
  | (k', v) :: rest => if k' = k then some v else tableLookup rest k

/-- `PluginMapper.ableton_to_fl`.  The lookup key is
`device_type or ableton_name` (Python `or`: an empty or missing
`device_type` falls back to the name); unmapped instruments default to
`'Sampler'`, unmapped effects return `ableton_name` unchanged. -/
def ableton_to_fl (ableton_name : String) (is_instrument : Bool)
    (device_type : Option String) : String :=
  let lookup_name := match device_type with
    | some s => if s = "" then ableton_name else s
    | none => ableton_name
  match tableLookup ABLETON_TO_FL_DRUMS lookup_name with
  | some v => v
  | none =>
    if is_instrument then
      (tableLookup ABLETON_TO_FL_INSTRUMENTS lookup_name).getD "Sampler"
    else
      (tableLookup ABLETON_TO_FL_EFFECTS lookup_name).getD ableton_name

/-- `PluginMapper.map_parameter_name`. -/
def map_parameter_name (param_name : String) : String :=
  (tableLookup PARAMETER_MAPPINGS param_name).getD param_name

/-- `PluginMapper.map_parameter_value`: affine range remap for parameters in
`PARAMETER_RANGES`, identity otherwise. -/
def map_parameter_value (param_name : String) (ableton_value : ℚ) : ℚ :=
  match tableLookup PARAMETER_RANGES param_name with
  | none => ableton_value
  | some ((able_min, able_max), (fl_min, fl_max)) =>
    fl_min + (ableton_value - able_min) / (able_max - able_min) * (fl_max - fl_min)

/-! ## Plugin state encoder (`converters/plugin_state_generator.py`) -/

/-- The pad dict built by `FLStudioWriter._generate_drum_rack_state` and
consumed by `generate_fpc_state` (all keys always supplied). -/
structure FpcPad where
  sample_path : String
  volume : ℚ
  pan : ℚ
  tune : ℚ
deriving DecidableEq, Repr

/-- The band dict consumed by `generate_fruity_eq_state`. -/
structure EqBand where
  freq : ℚ
  gain : ℚ
  q : ℚ
  btype : ℕ
deriving DecidableEq, Repr

/-- `PluginStateGenerator.generate_sampler_state`. -/
def generate_sampler_state (sample_path : String) (volume : ℚ) (pan : ℚ) : List ℕ :=
  [83, 77, 80, 76]      -- b'SMPL'
  ++ le32 1             -- version
  ++ (if sample_path = "" then le32 0
      else le32 (utf8Bytes sample_path).length ++ utf8Bytes sample_path)
  ++ [pyByte (volume * 100), pyByte (pan * 100)]

/-- `PluginStateGenerator.generate_3xosc_state`. -/
def generate_3xosc_state (osc1_vol : ℚ) (osc1_wave : ℕ) (osc2_vol : ℚ)
    (osc3_vol : ℚ) : List ℕ :=
  [51, 79, 83, 67]      -- b'3OSC'
  ++ le32 1             -- version
  ++ [1, osc1_wave, pyByte (osc1_vol * 100), 64]
  ++ [if osc2_vol > 0 then 1 else 0, 0, pyByte (osc2_vol * 100), 64]
  ++ [if osc3_vol > 0 then 1 else 0, 0, pyByte (osc3_vol * 100), 64]

/-- One enabled pad record of the FPC blob. -/
def fpcPadRecord (pad : FpcPad) : List ℕ :=
  [1]
  ++ (if pad.sample_path = "" then le16 0
      else le16 (utf8Bytes pad.sample_path).length ++ utf8Bytes pad.sample_path)
  ++ [pyByte (pad.volume * 100), pyByte (pad.pan * 100), pyByte (pad.tune * 100)]

/-- One disabled (absent) pad record of the FPC blob:
`append(0); pack('<H', 0); b'\x64\x64\x64'`. -/
def fpcEmptyPadRecord : List ℕ := [0, 0, 0, 100, 100, 100]

/-- The loop body shared by the fixed-record-count encoders: record for the
`i`-th input entry when present, the fixed absent-record otherwise. -/
def recordAt {α β : Type} (f : α → List β) (e : List β) (l : List α) (i : ℕ) : List β :=
  match l[i]? with
  | some x => f x
  | none => e

/-- `PluginStateGenerator.generate_fpc_state`: header, pad count capped at 16,
then the `for i in range(16)` pad-record loop. -/
def generate_fpc_state (pads : List FpcPad) : List ℕ :=
  [70, 80, 67, 32]      -- b'FPC ' (note the trailing space)
  ++ le32 1             -- version
  ++ le32 (min pads.length 16)
  ++ (List.range 16).flatMap (recordAt fpcPadRecord fpcEmptyPadRecord pads)

/-- `PluginStateGenerator.generate_fruity_compressor_state`. -/
def generate_fruity_compressor_state (threshold ratio attack release : ℚ) : List ℕ :=
  [67, 79, 77, 80]      -- b'COMP'
  ++ le32 1
  ++ [pyByte (threshold * 100), pyByte (ratio * 100), pyByte (attack * 100),
      pyByte (release * 100), 50, 0]

/-- `PluginStateGenerator.generate_fruity_delay_state`. -/
def generate_fruity_delay_state (time feedback mix : ℚ) : List ℕ :=
  [68, 76, 89, 51]      -- b'DLY3'
  ++ le32 1
  ++ [pyByte (time * 100), pyByte (feedback * 100), pyByte (mix * 100), 0, 0]

/-- `PluginStateGenerator.generate_fruity_reverb_state`. -/
def generate_fruity_reverb_state (size decay mix : ℚ) : List ℕ :=
  [82, 69, 86, 50]      -- b'REV2'
  ++ le32 1
  ++ [pyByte (size * 100), pyByte (decay * 100), pyByte (mix * 100), 50, 0]

/-- One enabled band record of the EQ blob. -/
def eqBandRecord (band : EqBand) : List ℕ :=
  [1, pyByte (band.freq * 100), pyByte (band.gain * 100), pyByte (band.q * 100),
   band.btype]

/-- One disabled band record of the EQ blob: `b'\x00\x32\x32\x32\x00'`. -/
def eqEmptyBandRecord : List ℕ := [0, 50, 50, 50, 0]

/-- `PluginStateGenerator.generate_fruity_eq_state`: header, band count capped
at 7, then the `for i in range(7)` band-record loop. -/
def generate_fruity_eq_state (bands : List EqBand) : List ℕ :=
  [80, 69, 81, 50]      -- b'PEQ2'
  ++ le32 1
  ++ le32 (min bands.length 7)
  ++ (List.range 7).flatMap (recordAt eqBandRecord eqEmptyBandRecord bands)

/-- `PluginStateGenerator.generate_generic_state`. -/
def generate_generic_state (plugin_name : String) (params : List (String × ℚ)) : List ℕ :=
  [80, 76, 71, 78]      -- b'PLGN'
  ++ le32 1
  ++ le16 (utf8Bytes plugin_name).length ++ utf8Bytes plugin_name
  ++ le32 params.length
  ++ params.flatMap (fun nv =>
       le16 (utf8Bytes nv.1).length ++ utf8Bytes nv.1 ++ packF32 nv.2)

/-- The `**kwargs` shapes with which the writer invokes
`PluginStateFactory.generate`. -/
inductive GenArgs where
  /-- `sample_path=..., volume=..., pan=...` -/
  | samplerArgs (sample_path : String) (volume : ℚ) (pan : ℚ)
  /-- no keyword arguments -/
  | noArgs
  /-- `pads=...` -/
  | fpcArgs (pads : List FpcPad)
  /-- `params=...` -/
  | paramsArgs (params : List (String × ℚ))
deriving DecidableEq, Repr

/-- `kwargs.get('params', {})`, used by the generic fallback branch. -/
def GenArgs.paramsOf : GenArgs → List (String × ℚ)
  | .paramsArgs ps => ps
  | _ => []

/-- `PluginStateFactory.generate`: dispatch on the plugin name; a dedicated
generator invoked with keyword arguments it does not accept raises a
`TypeError`, modelled as `.error ()`. -/
def factoryGenerate (plugin_name : String) (args : GenArgs) : Except Unit (List ℕ) :=
  if plugin_name = "Sampler" then
    match args with
    | .samplerArgs p v pn => .ok (generate_sampler_state p v pn)
    | .noArgs => .ok (generate_sampler_state "" 1 (1/2))
    | _ => .error ()
  else if plugin_name = "3xOsc" then
    match args with
    | .noArgs => .ok (generate_3xosc_state 1 0 0 0)
    | _ => .error ()
  else if plugin_name = "FPC" then
    match args with
    | .fpcArgs pads => .ok (generate_fpc_state pads)
    | _ => .error ()
  else if plugin_name = "Fruity Compressor" then
    match args with
    | .noArgs => .ok (generate_fruity_compressor_state (1/2) (3/10) (1/10) (3/10))
    | _ => .error ()
  else if plugin_name = "Fruity Delay 3" then
    match args with
    | .noArgs => .ok (generate_fruity_delay_state (1/4) (1/2) (1/2))
    | _ => .error ()
  else if plugin_name = "Fruity Reeverb 2" then
    match args with
    | .noArgs => .ok (generate_fruity_reverb_state (1/2) (1/2) (3/10))
    | _ => .error ()
  else if plugin_name = "Fruity Parametric EQ 2" then
    -- `bands` is a required positional parameter; every writer call shape
    -- reaching this generator lacks it, so dispatch raises.
    .error ()
  else
    .ok (generate_generic_state plugin_name args.paramsOf)

/-! ## FL Studio writer (`writers/flstudio_writer.py`)

The binary writer appends one identifying tag byte and then a payload for
each event; the event stream inside the `FLdt` block is modelled as a
`List Event`, one constructor per `data.append(tag)` site of
`_build_flp_binary` / `_write_channel` / `_write_pattern` /
`_write_playlist`, with `Event.tag` recording the source's tag byte
(`CHAN_NAME` and `PATTERN_NOTES` share the byte 203 in the source). -/

/-- One tagged event of the FLP data block. -/
inductive Event where
  | version (s : String)
  | projectId (n : ℕ)
  | tempo (bpm : ℤ)
  | title (s : String)
  | newChan (idx : ℕ)
  | chanName (s : String)
  | vol (v : ℤ)
  | pan (v : ℤ)
  | chanPlugin (blob : List ℕ)
  | newPat (idx : ℕ)
  | patName (s : String)
  | patNotes (payload : List ℕ)
  | playlist (payload : List ℕ)
deriving DecidableEq, Repr

/-- The tag byte written by `data.append(...)` for each event. -/
def Event.tag : Event → ℕ
  | .version _ => 199
  | .projectId _ => 156
  | .tempo _ => 66
  | .title _ => 206
  | .newChan _ => 64
  | .chanName _ => 203
  | .vol _ => 33
  | .pan _ => 34
  | .chanPlugin _ => 205
  | .newPat _ => 65
  | .patName _ => 193
  | .patNotes _ => 203
  | .playlist _ => 224

/-- `FLStudioWriter._normalize_track_plugins`: when a track has no explicit
instrument, the first non-drum `InstrumentGroupDevice` rack with plugins
donates its first plugin as the instrument and appends the rest to the
effect list.  The source mutates the track in place; the post-state is
returned.  `instrument_rack_trigger` is the rack condition of the loop:
not a drum rack, rack type `InstrumentGroupDevice`, non-empty plugins. -/
def instrument_rack_trigger (r : Rack) : Bool :=
  !r.is_drum_rack && r.rack_type == some "InstrumentGroupDevice" && !r.plugins.isEmpty

def normalize_track_plugins (t : Track) : Track :=
  match t.instrument with
  | some _ => t
  | none =>
    match t.racks.find? instrument_rack_trigger with
    | some r =>
      { t with instrument := r.plugins.head?, effects := t.effects ++ r.plugins.tail }
    | none => t

/-- Python dict assignment `d[k] = v`: update in place if the key exists
(keeping its position), else append. -/
def dictInsert (d : List (String × ℚ)) (k : String) (v : ℚ) : List (String × ℚ) :=
  if d.any (fun p => p.1 = k) then
    d.map (fun p => if p.1 = k then (k, v) else p)
  else d ++ [(k, v)]

/-- `FLStudioWriter._map_plugin_params`. -/
def map_plugin_params (plugin : Plugin) : List (String × ℚ) :=
  if plugin.parameters.isEmpty then [("volume", 100)]
  else
    plugin.parameters.foldl
      (fun d nv => dictInsert d (map_parameter_name nv.1) (map_parameter_value nv.1 nv.2))
      []

/-- `next((c for c in track.clips if not c.is_midi and c.audio_path), None)`. -/
def firstAudioClipWithPath (t : Track) : Option Clip :=
  t.clips.find? (fun c => !c.is_midi && c.audio_path != "")

/-- `FLStudioWriter._generate_drum_rack_state`: pads capped at 16 and
re-packed as FPC pad dicts with default tune `0.5`. -/
def generate_drum_rack_state (rack : Rack) : Except Unit (List ℕ) :=
  factoryGenerate "FPC" (.fpcArgs ((rack.drum_pads.take 16).map
    (fun p => ⟨p.sample_path, p.volume, p.pan, 1/2⟩)))

/-- `FLStudioWriter._generate_plugin_state`: the `'Sampler'` branch without
an audio clip and the final generic branch both fall through to
`PluginStateFactory.generate(fl_plugin_name, params=params or defaults)`. -/
def generate_plugin_state (fl_plugin_name : String) (t : Track)
    (params : List (String × ℚ)) : Except Unit (List ℕ) :=
  let fallbackParams := if params.isEmpty then [("volume", t.volume), ("pan", t.pan)] else params
  if fl_plugin_name = "Sampler" then
    match firstAudioClipWithPath t with
    | some c => .ok (generate_sampler_state c.audio_path t.volume ((t.pan + 1) / 2))
    | none => factoryGenerate "Sampler" (.paramsArgs fallbackParams)
  else if fl_plugin_name = "3xOsc" then
    factoryGenerate "3xOsc" .noArgs
  else if fl_plugin_name = "Sytrus" then
    factoryGenerate "Sytrus" (.paramsArgs [("volume", t.volume)])
  else
    factoryGenerate fl_plugin_name (.paramsArgs fallbackParams)

/-- The guard `if plugin_state and len(plugin_state) > 0:` applied to an
encoded blob: the `CHAN_PLUGIN` event is emitted only for a non-empty blob. -/
def pluginEventIfNonempty (st : List ℕ) : List Event :=
  if st.isEmpty then [] else [Event.chanPlugin st]

/-- The plugin-state part of `FLStudioWriter._write_channel`: the
`if/elif` chain selecting at most one `CHAN_PLUGIN` (tag 205) event, each
branch guarded by a non-emptiness check on the encoded blob. -/
def channelPluginEvents (t : Track) : Except Unit (List Event) :=
  match t.instrument with
  | some ins =>
    (generate_plugin_state (ableton_to_fl ins.name true ins.device_type) t
      (map_plugin_params ins)).map pluginEventIfNonempty
  | none =>
    match t.racks with
    | _ :: _ =>
      -- `elif track.racks:` — loop until the first drum rack, then break.
      match t.racks.find? (fun r => r.is_drum_rack) with
      | some rack =>
        (generate_drum_rack_state rack).map pluginEventIfNonempty
      | none => .ok []
    | [] =>
      if t.has_audio then
        match firstAudioClipWithPath t with
        | some c =>
          (factoryGenerate "Sampler"
              (.samplerArgs c.audio_path t.volume ((t.pan + 1) / 2))).map
            pluginEventIfNonempty
        | none => .ok []
      else if t.has_midi then
        (factoryGenerate "3xOsc" .noArgs).map pluginEventIfNonempty
      else .ok []

/-- `FLStudioWriter._write_channel`: channel-start, name, clamped volume and
pan, then the selected plugin-state event. -/
def writeChannelEvents (idx : ℕ) (t : Track) : Except Unit (List Event) :=
  (channelPluginEvents t).map (fun pluginEvs =>
    [Event.newChan idx, Event.chanName t.name,
     Event.vol (min 128 (max 0 (pyInt (t.volume * 100)))),
     Event.pan (min 128 (max 0 (pyInt ((t.pan + 1) * 64))))]
    ++ pluginEvs)

/-- The channel loop of `_build_flp_binary` (`for idx, track in enumerate`);
an exception raised for one channel aborts the whole build. -/
def writeChannels (idx : ℕ) : List Track → Except Unit (List Event)
  | [] => .ok []
  | t :: ts =>
    match writeChannelEvents idx t with
    | .error e => .error e
    | .ok evs =>
      match writeChannels (idx + 1) ts with
      | .error e => .error e
      | .ok rest => .ok (evs ++ rest)

/-- One 24-byte note record of `_write_pattern`: a zeroed `bytearray(24)`
with position ticks packed at 0–3, flags at 4–5, channel at 6–7, duration
ticks at 8–11, key at 12, pan 64 at 16 and velocity at 17. -/
def noteBytes (track_idx : ℕ) (ppq : ℕ) (n : Note) : List ℕ :=
  le32 (n.to_ticks ppq).1.toNat
  ++ le16 0
  ++ le16 track_idx
  ++ le32 (n.to_ticks ppq).2.toNat
  ++ [n.key, 0, 0, 0, 64, pyByte (n.velocity * 127), 0, 0, 0, 0, 0, 0]

/-- The name given to a pattern by `_write_pattern`. -/
def patternName (track_name : String) (c : Clip) : String :=
  match c.scene_index with
  | some s => track_name ++ " - Scene " ++ toString (s + 1)
  | none => track_name ++ " - " ++ c.name

/-- `FLStudioWriter._write_pattern`: one-based pattern-start event, pattern
name, and — only when the note payload is non-empty — a single
`PATTERN_NOTES` event holding the concatenated 24-byte records. -/
def write_pattern (pattern_idx : ℕ) (track_idx : ℕ) (track_name : String)
    (c : Clip) (ppq : ℕ) : List Event :=
  let note_data := c.notes.flatMap (noteBytes track_idx ppq)
  [Event.newPat (pattern_idx + 1), Event.patName (patternName track_name c)]
  ++ (if note_data.isEmpty then [] else [Event.patNotes note_data])

/-- A playlist entry recorded by the pattern loop of `_build_flp_binary`. -/
structure PlaylistItem where
  position : ℤ
  length : ℤ
  pattern_id : ℕ
  track_idx : ℕ
deriving DecidableEq, Repr

/-- The `(track_idx, track_name, clip)` list the pattern loop walks: every
MIDI clip of every track, in track order then clip order (audio clips are
skipped). -/
def midiClipsFrom (idx : ℕ) : List Track → List (ℕ × String × Clip)
  | [] => []
  | t :: ts =>
    (t.clips.filter (fun c => c.is_midi)).map (fun c => (idx, t.name, c))
    ++ midiClipsFrom (idx + 1) ts

/-- The pattern loop of `_build_flp_binary`: `pattern_count` starts at 0 and
feeds `_write_pattern` per MIDI clip. -/
def writePatterns (ppq : ℕ) (pattern_count : ℕ) : List (ℕ × String × Clip) → List Event
  | [] => []
  | (ti, nm, c) :: rest =>
    write_pattern pattern_count ti nm c ppq ++ writePatterns ppq (pattern_count + 1) rest

/-- The playlist entries accumulated by the same loop. -/
def playlistItemsFrom (ppq : ℕ) (pattern_count : ℕ) :
    List (ℕ × String × Clip) → List PlaylistItem
  | [] => []
  | (ti, _, c) :: rest =>
    { position := pyInt (c.start * ppq), length := pyInt (c.duration * ppq),
      pattern_id := pattern_count + 1, track_idx := ti }
    :: playlistItemsFrom ppq (pattern_count + 1) rest

/-- The 20-byte `pack('<IIIII', ...)` tuple of `_write_playlist` (length
floored at 1, flags 0). -/
def playlistItemBytes (item : PlaylistItem) : List ℕ :=
  le32 item.position.toNat ++ le32 (max 1 item.length).toNat
  ++ le32 item.pattern_id ++ le32 item.track_idx ++ le32 0

/-- `FLStudioWriter._write_playlist`: a single event, omitted entirely when
there are no playlist items. -/
def writePlaylist (items : List PlaylistItem) : List Event :=
  if items.isEmpty then [] else [Event.playlist (items.flatMap playlistItemBytes)]

/-- `FLStudioWriter._build_flp_binary` (the event stream of the `FLdt`
block): version, project id, the single tempo event, optional title, then
channels (normalized in place first), patterns and playlist.  The PPQ is
`transproj.ppq or 960` as set by `write`. -/
def buildFLP (p : TransProj) : Except Unit (List Event) :=
  let ppq := if p.ppq = 0 then 960 else p.ppq
  let tracks := p.tracks.map normalize_track_plugins
  match writeChannels 0 tracks with
  | .error e => .error e
  | .ok chans =>
    let midiCtx := midiClipsFrom 0 tracks
    .ok ([Event.version "21.0.3", Event.projectId 12345, Event.tempo (pyInt p.tempo)]
         ++ (if p.name = "" then [] else [Event.title p.name])
         ++ chans
         ++ writePatterns ppq 0 midiCtx
         ++ writePlaylist (playlistItemsFrom ppq 0 midiCtx))

/-- The project state after `_build_flp_binary` returns: the channel loop
mutates each track through `_normalize_track_plugins`; everything else is
untouched. -/
def projectAfterWrite (p : TransProj) : TransProj :=
  { p with tracks := p.tracks.map normalize_track_plugins }

/-! ## Ableton parser, clip collection (`parsers/ableton_parser.py`)

The XML tree is modelled at the granularity the clip-collection code of
`AbletonParser._parse_track` reads it.  `find('.//Name')` followed by
`.get('Value', default)` collapses to an `Option String` per clip element
(`none` covers both a missing `Name` element and a missing `Value`
attribute — the two cases behave identically in both readers); numeric
attributes are modelled as already-parsed rationals. -/

/-- One `MidiNoteEvent` element (`Time`/`Duration`/`Velocity` attributes,
each optional with defaults `0`/`1`/`100`). -/
structure NoteEventE where
  time : Option ℚ := none
  dur : Option ℚ := none
  vel : Option ℚ := none
deriving DecidableEq, Repr

/-- One `KeyTrack` element: `midiKeyElem = none` models an absent `MidiKey`
element (the key track is skipped); `some a` carries the optional `Value`
attribute (default 60). -/
structure KeyTrackE where
  midiKeyElem : Option (Option ℕ) := none
  noteEvents : List NoteEventE := []
deriving DecidableEq, Repr

/-- One `MidiClip` element as `_parse_midi_clip` reads it. -/
structure MidiClipE where
  nameAttr : Option String := none
  startAttr : Option ℚ := none
  endAttr : Option ℚ := none
  keyTracks : List KeyTrackE := []
deriving DecidableEq, Repr

/-- One `AudioClip` element as `_parse_audio_clip` reads it; `pathAttr`
collapses the `SampleRef/FileRef/Path@Value` chain. -/
structure AudioClipE where
  nameAttr : Option String := none
  startAttr : Option ℚ := none
  endAttr : Option ℚ := none
  pathAttr : Option String := none
deriving DecidableEq, Repr

/-- The `Value` child of one `ClipSlot` element. -/
structure SlotValueE where
  midi : Option MidiClipE := none
  audio : Option AudioClipE := none
deriving DecidableEq, Repr

/-- The clip-bearing parts of one track element: the clip-slot list, the
arrangement event list, and any further directly-nested clip elements.
`findall('.//MidiClip')` over the whole track element returns all of these
(see `allMidiElems`). -/
structure TrackClipsE where
  clipSlots : List (Option SlotValueE) := []
  arrMidi : List MidiClipE := []
  arrAudio : List AudioClipE := []
  extraMidi : List MidiClipE := []
  extraAudio : List AudioClipE := []
deriving DecidableEq, Repr

/-- `AbletonParser._get_clip_name` on a MIDI clip element:
`find('.//Name').get('Value', '')` with default `''`. -/
def get_clip_name_midi (e : MidiClipE) : String := e.nameAttr.getD ""

/-- `AbletonParser._get_clip_name` on an audio clip element. -/
def get_clip_name_audio (e : AudioClipE) : String := e.nameAttr.getD ""

/-- `AbletonParser._parse_midi_clip` (note the different name default,
`'MIDI Clip'`). -/
def parse_midi_clip (e : MidiClipE) (scene_index : Option ℕ) : Clip :=
  let start := e.startAttr.getD 0
  let stop := e.endAttr.getD 4
  { name := e.nameAttr.getD "MIDI Clip"
    start := start
    duration := stop - start
    is_midi := true
    scene_index := scene_index
    notes := e.keyTracks.flatMap (fun kt =>
      match kt.midiKeyElem with
      | none => []
      | some keyAttr =>
        let note_num := keyAttr.getD 60
        kt.noteEvents.map (fun ev =>
          { position := ev.time.getD 0
            duration := ev.dur.getD 1
            key := note_num
            velocity := ev.vel.getD 100 / 127 })) }

/-- `AbletonParser._parse_audio_clip` (name default `'Audio Clip'`). -/
def parse_audio_clip (e : AudioClipE) (scene_index : Option ℕ) : Clip :=
  let start := e.startAttr.getD 0
  let stop := e.endAttr.getD 4
  { name := e.nameAttr.getD "Audio Clip"
    start := start
    duration := stop - start
    is_midi := false
    scene_index := scene_index
    audio_path := e.pathAttr.getD "" }

/-- All `MidiClip` descendants of the track element, as
`track_elem.findall('.//MidiClip')` returns them (clip-slot clips, then
arrangement clips, then the remaining directly-nested ones, in document
order). -/
def allMidiElems (t : TrackClipsE) : List MidiClipE :=
  (t.clipSlots.filterMap id).filterMap (fun v => v.midi) ++ t.arrMidi ++ t.extraMidi

/-- All `AudioClip` descendants of the track element. -/
def allAudioElems (t : TrackClipsE) : List AudioClipE :=
  (t.clipSlots.filterMap id).filterMap (fun v => v.audio) ++ t.arrAudio ++ t.extraAudio

/-- The fallback-sweep step of `_parse_track` for one MIDI clip element:
append unless an already-collected clip has the same `_get_clip_name`. -/
def sweepMidiStep (acc : List Clip) (m : MidiClipE) : List Clip :=
  if acc.any (fun c => c.name == get_clip_name_midi m) then acc
  else acc ++ [parse_midi_clip m none]

/-- The fallback-sweep step for one audio clip element. -/
def sweepAudioStep (acc : List Clip) (a : AudioClipE) : List Clip :=
  if acc.any (fun c => c.name == get_clip_name_audio a) then acc
  else acc ++ [parse_audio_clip a none]

/-- The clip-collection part of `AbletonParser._parse_track`: clip slots
(scene index = slot position), then arrangement clips, then the
deduplicating fallback sweep over every clip element under the track. -/
def parse_track_clips (t : TrackClipsE) : List Clip :=
  let afterSlots := (t.clipSlots.enum.map (fun sv =>
    match sv.2 with
    | none => []
    | some v =>
      (v.midi.map (fun m => parse_midi_clip m (some sv.1))).toList
      ++ (v.audio.map (fun a => parse_audio_clip a (some sv.1))).toList)).flatten
  let afterArr := afterSlots
    ++ t.arrMidi.map (fun m => parse_midi_clip m none)
    ++ t.arrAudio.map (fun a => parse_audio_clip a none)
  let afterMidiSweep := (allMidiElems t).foldl sweepMidiStep afterArr
  (allAudioElems t).foldl sweepAudioStep afterMidiSweep

end TransFluence

namespace TransFluence

/-! ## General helper lemmas -/

/-- On nonnegative inputs Python truncation agrees with the floor. -/
theorem pyInt_of_nonneg {q : ℚ} (h : 0 ≤ q) : pyInt q = ⌊q⌋ := by
  rw [pyInt, if_neg (not_lt.mpr h)]

/-- A successful table lookup returns a pair of the table. -/
theorem tableLookup_mem {α : Type} {t : List (String × α)} {k : String} {v : α}
    (h : tableLookup t k = some v) : (k, v) ∈ t := by
  induction t with
  | nil => simp [tableLookup] at h
  | cons p rest ih =>
    cases p with
    | mk k' v' =>
      rw [tableLookup] at h
      split at h
      · next heq =>
        injection h with h
        subst heq; subst h
        exact List.mem_cons_self _ _
      · exact List.mem_cons_of_mem _ (ih h)

end TransFluence
namespace TransFluence

/-! ## Claim C1 — tick conversion -/

/-- C1 counterexample: at position 959/960 beats and resolution 96 PPQ the
serializer computes 95 position ticks (`int()` truncation), while the
claimed `round(p * ppq)` is 96: `Note.to_ticks` does not round. -/
theorem c1_counterexample_to_ticks_not_round :
    (Note.mk (959/960) 1 60 1).to_ticks 96
      ≠ (round ((959/960 : ℚ) * 96), round ((1 : ℚ) * 96)) := by
  have h1 : (Note.mk (959/960) 1 60 1).to_ticks 96 = (95, 96) := by
    show (pyInt ((959/960 : ℚ) * 96), pyInt ((1 : ℚ) * 96)) = (95, 96)
    norm_num [pyInt]
  have h2 : round ((959/960 : ℚ) * 96) = 96 := by norm_num [round_eq]
  rw [h1, h2]
  intro h
  exact absurd (congrArg Prod.fst h) (by norm_num)

/-- C1 (amended): for every Note with nonnegative beat position and duration
and every resolution, `Note.to_ticks` computes the floor (= Python `int()`
truncation) of `beats * ppq`, not the rounded value. -/
theorem c1_to_ticks_floor (n : Note) (ppq : ℕ)
    (hp : 0 ≤ n.position) (hd : 0 ≤ n.duration) :
    n.to_ticks ppq = (⌊n.position * ppq⌋, ⌊n.duration * ppq⌋) := by
  unfold Note.to_ticks
  rw [pyInt_of_nonneg (mul_nonneg hp (by positivity)),
      pyInt_of_nonneg (mul_nonneg hd (by positivity))]

/-- C1 witness: the amended theorem applied at a concrete note. -/
theorem c1_to_ticks_floor_witness :
    ((0 : ℚ) ≤ (1/2 : ℚ) ∧ (0 : ℚ) ≤ (3/4 : ℚ)) ∧
    (Note.mk (1/2) (3/4) 60 1).to_ticks 96
      = (⌊(1/2 : ℚ) * (96 : ℕ)⌋, ⌊(3/4 : ℚ) * (96 : ℕ)⌋) :=
  ⟨⟨by norm_num, by norm_num⟩,
   c1_to_ticks_floor (Note.mk (1/2) (3/4) 60 1) 96 (by norm_num) (by norm_num)⟩

end TransFluence
namespace TransFluence

/-! ## Claim C7 — device-name mapping -/

/-- Every target name in the drum table is non-empty. -/
theorem drums_values_nonempty {k v : String}
    (h : (k, v) ∈ ABLETON_TO_FL_DRUMS) : v ≠ "" := by
  fin_cases h <;> decide

/-- Every target name in the instrument table is non-empty. -/
theorem instruments_values_nonempty {k v : String}
    (h : (k, v) ∈ ABLETON_TO_FL_INSTRUMENTS) : v ≠ "" := by
  fin_cases h <;> decide

/-- Every target name in the effect table is non-empty. -/
theorem effects_values_nonempty {k v : String}
    (h : (k, v) ∈ ABLETON_TO_FL_EFFECTS) : v ≠ "" := by
  fin_cases h <;> decide

/-- C7 counterexample: an unmapped effect with the empty source name is
passed through unchanged, so `ableton_to_fl` returns the empty string —
the mapping is not total onto non-empty names. -/
theorem c7_counterexample_empty_effect_name :
    ableton_to_fl "" false none = "" := by decide

/-- C7 (amended): `ableton_to_fl` returns a non-empty string whenever the
device is an instrument or the source name is non-empty; drum devices are
checked first, unmapped instruments fall back to `"Sampler"`, and unmapped
effects return the source name unchanged (hence empty only for the empty
source name). -/
theorem c7_ableton_to_fl_nonempty (s : String) (is_inst : Bool)
    (dt : Option String) (h : is_inst = true ∨ s ≠ "") :
    ableton_to_fl s is_inst dt ≠ "" := by
  unfold ableton_to_fl
  set lk := (match dt with
    | some str => if str = "" then s else str
    | none => s) with hlk
  cases hdrum : tableLookup ABLETON_TO_FL_DRUMS lk with
  | some v =>
    simp only [hdrum]
    exact drums_values_nonempty (tableLookup_mem hdrum)
  | none =>
    simp only [hdrum]
    cases is_inst with
    | true =>
      rw [if_pos rfl]
      cases hins : tableLookup ABLETON_TO_FL_INSTRUMENTS lk with
      | some v =>
        simp only [hins, Option.getD_some]
        exact instruments_values_nonempty (tableLookup_mem hins)
      | none => simp [hins]
    | false =>
      rw [if_neg (by simp)]
      cases heff : tableLookup ABLETON_TO_FL_EFFECTS lk with
      | some v =>
        simp only [heff, Option.getD_some]
        exact effects_values_nonempty (tableLookup_mem heff)
      | none =>
        simp only [heff, Option.getD_none]
        rcases h with h | h
        · cases h
        · exact h

/-- C7 witness: the amended theorem at an unmapped effect name. -/
theorem c7_ableton_to_fl_nonempty_witness :
    ((false = true) ∨ ("SomeUnknownFx" : String) ≠ "") ∧
    ableton_to_fl "SomeUnknownFx" false none ≠ "" :=
  ⟨Or.inr (by decide),
   c7_ableton_to_fl_nonempty "SomeUnknownFx" false none (Or.inr (by decide))⟩

end TransFluence
namespace TransFluence

/-! ## Claim C8 — parameter value remap -/

/-- Every range in the value-range table is non-degenerate (src_min ≠ src_max). -/
theorem ranges_nondegenerate {k : String} {r : (ℚ × ℚ) × (ℚ × ℚ)}
    (h : (k, r) ∈ PARAMETER_RANGES) : r.1.2 - r.1.1 ≠ 0 := by
  fin_cases h <;> norm_num

/-- C8: for every parameter in the value-range table the remap is the affine
map `dst_min + ((v - src_min)/(src_max - src_min)) * (dst_max - dst_min)`;
the source minimum maps exactly to the target minimum and the source
maximum exactly to the target maximum (no clamping is applied); parameters
absent from the table pass through unchanged. -/
theorem c8_map_parameter_value_affine :
    (∀ (name : String) (a b c d : ℚ),
        tableLookup PARAMETER_RANGES name = some ((a, b), (c, d)) →
        (∀ v, map_parameter_value name v = c + (v - a) / (b - a) * (d - c)) ∧
        map_parameter_value name a = c ∧
        map_parameter_value name b = d) ∧
    (∀ (name : String) (v : ℚ),
        tableLookup PARAMETER_RANGES name = none →
        map_parameter_value name v = v) := by
  constructor
  · intro name a b c d h
    have hba : b - a ≠ 0 := ranges_nondegenerate (tableLookup_mem h)
    have hform : ∀ v, map_parameter_value name v = c + (v - a) / (b - a) * (d - c) := by
      intro v
      unfold map_parameter_value
      rw [h]
    refine ⟨hform, ?_, ?_⟩
    · rw [hform a]
      simp
    · rw [hform b]
      rw [div_self hba]
      ring
  · intro name v h
    unfold map_parameter_value
    rw [h]

/-- C8 witness: the theorem applied to the `Volume` entry `(0,1) → (0,100)`
and to a name absent from the table. -/
theorem c8_map_parameter_value_affine_witness :
    map_parameter_value "Volume" 0 = 0 ∧
    map_parameter_value "Volume" 1 = 100 ∧
    map_parameter_value "NoSuchParam" (7/2) = 7/2 :=
  ⟨(c8_map_parameter_value_affine.1 "Volume" 0 1 0 100 rfl).2.1,
   (c8_map_parameter_value_affine.1 "Volume" 0 1 0 100 rfl).2.2,
   c8_map_parameter_value_affine.2 "NoSuchParam" (7/2) rfl⟩

end TransFluence
namespace TransFluence

/-! ## Claim C9 — fixed-size record loops of the blob encoders -/

/-- The `for i in range(k)` pattern of the blob encoders: present entries
are mapped, missing indices produce the fixed absent-record, giving the
mapped first `k` entries followed by padding records. -/
theorem range_flatMap_get {α β : Type} (f : α → List β) (e : List β) :
    ∀ (k : ℕ) (l : List α),
      (List.range k).flatMap (recordAt f e l)
        = ((l.take k).map f ++ List.replicate (k - min l.length k) e).flatten := by
  intro k
  induction k with
  | zero => intro l; simp
  | succ k ih =>
    intro l
    rw [List.range_succ, List.flatMap_append, ih l]
    by_cases hk : k < l.length
    · have hmin : min l.length k = k := by omega
      have hmin' : min l.length (k + 1) = k + 1 := by omega
      have hrec : recordAt f e l k = f (l.get ⟨k, hk⟩) := by
        simp [recordAt, List.getElem?_eq_getElem hk]
      rw [hmin, hmin', List.take_succ, List.getElem?_eq_getElem hk]
      simp [hrec, List.get_eq_getElem]
      have hk2 : k < (List.map f l).length := by simpa using hk
      rw [List.take_succ, List.getElem?_eq_getElem hk2]
      simp
    · have hlen : l.length ≤ k := by omega
      have hmin : min l.length k = l.length := by omega
      have hmin' : min l.length (k + 1) = l.length := by omega
      have hrep : k + 1 - l.length = (k - l.length) + 1 := by omega
      have hrec : recordAt f e l k = e := by
        simp [recordAt, List.getElem?_eq_none hlen]
      rw [hmin, hmin', hrep, List.replicate_succ',
          List.take_of_length_le hlen, List.take_of_length_le (by omega)]
      simp [hrec]

/-- C9: the drum-kit blob always consists of the `FPC ` header, version,
a pad-count field equal to `min(n, 16)`, and exactly 16 pad records — the
first `min(n,16)` input pads in order (pads beyond the 16th dropped), padded
with fixed disabled records; the equalizer blob likewise always carries
exactly 7 band records after its header. -/
theorem c9_fixed_record_counts (pads : List FpcPad) (bands : List EqBand) :
    (generate_fpc_state pads
       = [70, 80, 67, 32] ++ le32 1 ++ le32 (min pads.length 16)
         ++ ((pads.take 16).map fpcPadRecord
             ++ List.replicate (16 - min pads.length 16) fpcEmptyPadRecord).flatten
     ∧ ((pads.take 16).map fpcPadRecord
         ++ List.replicate (16 - min pads.length 16) fpcEmptyPadRecord).length = 16)
    ∧
    (generate_fruity_eq_state bands
       = [80, 69, 81, 50] ++ le32 1 ++ le32 (min bands.length 7)
         ++ ((bands.take 7).map eqBandRecord
             ++ List.replicate (7 - min bands.length 7) eqEmptyBandRecord).flatten
     ∧ ((bands.take 7).map eqBandRecord
         ++ List.replicate (7 - min bands.length 7) eqEmptyBandRecord).length = 7) := by
  refine ⟨⟨?_, ?_⟩, ⟨?_, ?_⟩⟩
  · unfold generate_fpc_state
    rw [range_flatMap_get fpcPadRecord fpcEmptyPadRecord 16 pads]
  · simp [List.length_take]
    omega
  · unfold generate_fruity_eq_state
    rw [range_flatMap_get eqBandRecord eqEmptyBandRecord 7 bands]
  · simp [List.length_take]
    omega

end TransFluence
namespace TransFluence

/-! ## Claim C6 — clip deduplication in the parser -/

/-- A track element whose clip-slot list holds a single MIDI clip element
that carries no name value: the same element is also reached by the
fallback sweep. -/
def unnamedSlotTrack : TrackClipsE :=
  { clipSlots := [some { midi := some {} }] }

/-- C6 evaluation at the failing input: a MIDI clip element without a name
value, reachable both through the clip-slot list and through the fallback
sweep, is collected twice.  `_parse_midi_clip` stores the default name
`"MIDI Clip"` while `_get_clip_name` computes the dedup key `""`, so the
fallback's duplicate check never matches and the claim's exactly-once
guarantee fails. -/
theorem c6_unnamed_clip_collected_twice :
    (parse_track_clips unnamedSlotTrack).length = 2 ∧
    (parse_track_clips unnamedSlotTrack).map Clip.name
      = ["MIDI Clip", "MIDI Clip"] ∧
    get_clip_name_midi {} = "" := by
  refine ⟨by decide, by decide, by decide⟩

/-! ## Claim C10 — the write mutates the project through normalization -/

/-- A track with no explicit instrument but an instrument-group rack with
one plugin: `_normalize_track_plugins` overwrites `instrument`. -/
def c10Track : Track :=
  { name := "Keys"
    clips := [{ name := "Part", start := 0, duration := 4, is_midi := true }]
    racks := [{ name := "R"
                rack_type := some "InstrumentGroupDevice"
                plugins := [{ name := "Operator", is_instrument := true }] }] }

/-- The projects before and after writing `c10Track`. -/
def c10Proj : TransProj := { name := "P", tracks := [c10Track] }

/-- C10 counterexample: writing the project changes a track's instrument —
the normalization step of the channel loop sets the previously-absent
instrument from the rack, so entities owned by the Project are not left
unchanged by the write. -/
theorem c10_counterexample_write_mutates :
    (projectAfterWrite c10Proj).tracks.map Track.instrument
      ≠ c10Proj.tracks.map Track.instrument := by decide

end TransFluence
namespace TransFluence

/-- Normalization never touches a track's identity, mixer fields, clips or
racks. -/
theorem normalize_preserves_fields (t : Track) :
    (normalize_track_plugins t).name = t.name ∧
    (normalize_track_plugins t).color = t.color ∧
    (normalize_track_plugins t).volume = t.volume ∧
    (normalize_track_plugins t).pan = t.pan ∧
    (normalize_track_plugins t).muted = t.muted ∧
    (normalize_track_plugins t).solo = t.solo ∧
    (normalize_track_plugins t).clips = t.clips ∧
    (normalize_track_plugins t).racks = t.racks := by
  unfold normalize_track_plugins
  cases t.instrument with
  | some _ => exact ⟨rfl, rfl, rfl, rfl, rfl, rfl, rfl, rfl⟩
  | none =>
    cases t.racks.find? instrument_rack_trigger with
    | some r => exact ⟨rfl, rfl, rfl, rfl, rfl, rfl, rfl, rfl⟩
    | none => exact ⟨rfl, rfl, rfl, rfl, rfl, rfl, rfl, rfl⟩

/-- C10 (amended): writing a project leaves its name, tempo, resolution and
every track's clips, notes, racks and mixer fields (color, volume, pan,
mute, solo) unchanged; a track's instrument and effect list are also
unchanged unless the track had no instrument and carries a triggering
instrument-group rack, in which case the write installs that rack's first
plugin as the instrument and appends its remaining plugins to the effect
list. -/
theorem c10_write_mutates_only_normalization (p : TransProj) :
    (projectAfterWrite p).name = p.name ∧
    (projectAfterWrite p).tempo = p.tempo ∧
    (projectAfterWrite p).ppq = p.ppq ∧
    (projectAfterWrite p).tracks.map Track.name = p.tracks.map Track.name ∧
    (projectAfterWrite p).tracks.map Track.clips = p.tracks.map Track.clips ∧
    (projectAfterWrite p).tracks.map Track.racks = p.tracks.map Track.racks ∧
    (projectAfterWrite p).tracks.map Track.color = p.tracks.map Track.color ∧
    (projectAfterWrite p).tracks.map Track.volume = p.tracks.map Track.volume ∧
    (projectAfterWrite p).tracks.map Track.pan = p.tracks.map Track.pan ∧
    (projectAfterWrite p).tracks.map Track.muted = p.tracks.map Track.muted ∧
    (projectAfterWrite p).tracks.map Track.solo = p.tracks.map Track.solo ∧
    (∀ t ∈ p.tracks,
       (t.instrument.isSome = true ∨ t.racks.find? instrument_rack_trigger = none) →
       normalize_track_plugins t = t) ∧
    (∀ t ∈ p.tracks, ∀ r,
       t.instrument = none →
       t.racks.find? instrument_rack_trigger = some r →
       (normalize_track_plugins t).instrument = r.plugins.head? ∧
       (normalize_track_plugins t).effects = t.effects ++ r.plugins.tail) := by
  refine ⟨rfl, rfl, rfl, ?_, ?_, ?_, ?_, ?_, ?_, ?_, ?_, ?_, ?_⟩
  · show (p.tracks.map normalize_track_plugins).map Track.name = _
    rw [List.map_map]
    exact List.map_congr_left (fun t _ => (normalize_preserves_fields t).1)
  · show (p.tracks.map normalize_track_plugins).map Track.clips = _
    rw [List.map_map]
    exact List.map_congr_left (fun t _ => (normalize_preserves_fields t).2.2.2.2.2.2.1)
  · show (p.tracks.map normalize_track_plugins).map Track.racks = _
    rw [List.map_map]
    exact List.map_congr_left (fun t _ => (normalize_preserves_fields t).2.2.2.2.2.2.2)
  · show (p.tracks.map normalize_track_plugins).map Track.color = _
    rw [List.map_map]
    exact List.map_congr_left (fun t _ => (normalize_preserves_fields t).2.1)
  · show (p.tracks.map normalize_track_plugins).map Track.volume = _
    rw [List.map_map]
    exact List.map_congr_left (fun t _ => (normalize_preserves_fields t).2.2.1)
  · show (p.tracks.map normalize_track_plugins).map Track.pan = _
    rw [List.map_map]
    exact List.map_congr_left (fun t _ => (normalize_preserves_fields t).2.2.2.1)
  · show (p.tracks.map normalize_track_plugins).map Track.muted = _
    rw [List.map_map]
    exact List.map_congr_left (fun t _ => (normalize_preserves_fields t).2.2.2.2.1)
  · show (p.tracks.map normalize_track_plugins).map Track.solo = _
    rw [List.map_map]
    exact List.map_congr_left (fun t _ => (normalize_preserves_fields t).2.2.2.2.2.1)
  · intro t _ h
    unfold normalize_track_plugins
    cases hins : t.instrument with
    | some _ => rfl
    | none =>
      rcases h with h | h
      · rw [hins] at h; cases h
      · rw [h]
  · intro t _ r hins hfind
    unfold normalize_track_plugins
    rw [hins, hfind]
    exact ⟨rfl, rfl⟩

/-- C10 witness: the amended theorem applied at the counterexample project,
discharging both inner hypotheses at the concrete track. -/
theorem c10_write_mutates_only_normalization_witness :
    (projectAfterWrite c10Proj).tracks.map Track.clips
      = c10Proj.tracks.map Track.clips ∧
    (projectAfterWrite c10Proj).tracks.map Track.volume
      = c10Proj.tracks.map Track.volume ∧
    (normalize_track_plugins c10Track).instrument
      = Option.some { name := "Operator", is_instrument := true } :=
  ⟨(c10_write_mutates_only_normalization c10Proj).2.2.2.2.1,
   (c10_write_mutates_only_normalization c10Proj).2.2.2.2.2.2.2.1,
   ((c10_write_mutates_only_normalization c10Proj).2.2.2.2.2.2.2.2.2.2.2.2
      c10Track (by decide) { name := "R"
                             rack_type := some "InstrumentGroupDevice"
                             plugins := [{ name := "Operator", is_instrument := true }] }
      (by decide) (by decide)).1⟩

end TransFluence
namespace TransFluence

/-! ## Claim C2 — note-block layout -/

/-- Each note record is exactly 24 bytes. -/
theorem noteBytes_length (track_idx ppq : ℕ) (n : Note) :
    (noteBytes track_idx ppq n).length = 24 := by
  simp [noteBytes, le32, le16]

/-- The note block is `24 * number of notes` bytes long. -/
theorem noteBlock_length (track_idx ppq : ℕ) (notes : List Note) :
    (notes.flatMap (noteBytes track_idx ppq)).length = 24 * notes.length := by
  induction notes with
  | nil => simp
  | cons n rest ih =>
    rw [List.flatMap_cons, List.length_append, ih, noteBytes_length,
      List.length_cons]
    ring

/-- C2 counterexample: a note of velocity 0.5 is written with velocity byte
63 (`int(0.5*127)` truncates 63.5), while the claimed `round(0.5*127)` is
64 — the writer truncates, it does not round. -/
theorem c2_counterexample_velocity_byte :
    (noteBytes 0 960 (Note.mk 0 1 60 (1/2)))[17]? = some 63 ∧
    round ((1/2 : ℚ) * 127) = 64 ∧ (63 : ℕ) ≠ 64 := by
  refine ⟨?_, by norm_num [round_eq], by decide⟩
  have h : (noteBytes 0 960 (Note.mk 0 1 60 (1/2)))[17]?
      = some (pyByte ((1/2 : ℚ) * 127)) := rfl
  rw [h]
  norm_num [pyByte, pyInt]
  rfl

/-- C2 (amended): for every MIDI clip the writer emits — only when the clip
has notes — a single note-block event that concatenates fixed 24-byte
records, one per Note in clip order, with tick position at bytes 0–3 and
tick duration at bytes 8–11 (truncated, `int(beats*ppq)`, = floor for the
nonnegative model values), flags zero at bytes 4–5, owning channel at bytes
6–7, MIDI key at byte 12, fixed pan 64 at byte 16, velocity
`int(velocity*127)` (truncated, not rounded) at byte 17, and all remaining
bytes zero; a clip with no notes produces no note-block event. -/
theorem c2_note_block (pattern_idx track_idx : ℕ) (track_name : String)
    (c : Clip) (ppq : ℕ) :
    (c.notes = [] →
       write_pattern pattern_idx track_idx track_name c ppq
         = [Event.newPat (pattern_idx + 1), Event.patName (patternName track_name c)]) ∧
    (c.notes ≠ [] →
       write_pattern pattern_idx track_idx track_name c ppq
         = [Event.newPat (pattern_idx + 1), Event.patName (patternName track_name c),
            Event.patNotes (c.notes.flatMap (noteBytes track_idx ppq))]) ∧
    (c.notes.flatMap (noteBytes track_idx ppq)).length = 24 * c.notes.length ∧
    (∀ n ∈ c.notes, 0 ≤ n.position → 0 ≤ n.duration → 0 ≤ n.velocity →
       (noteBytes track_idx ppq n).length = 24 ∧
       (noteBytes track_idx ppq n).take 4 = le32 (⌊n.position * ppq⌋).toNat ∧
       ((noteBytes track_idx ppq n).drop 4).take 2 = [0, 0] ∧
       ((noteBytes track_idx ppq n).drop 6).take 2 = le16 track_idx ∧
       ((noteBytes track_idx ppq n).drop 8).take 4 = le32 (⌊n.duration * ppq⌋).toNat ∧
       (noteBytes track_idx ppq n)[12]? = some n.key ∧
       (noteBytes track_idx ppq n)[16]? = some 64 ∧
       (noteBytes track_idx ppq n)[17]? = some (⌊n.velocity * 127⌋).toNat ∧
       ((noteBytes track_idx ppq n).drop 13).take 3 = [0, 0, 0] ∧
       (noteBytes track_idx ppq n).drop 18 = [0, 0, 0, 0, 0, 0]) := by
  refine ⟨?_, ?_, noteBlock_length track_idx ppq c.notes, ?_⟩
  · intro h
    unfold write_pattern
    rw [h]
    rfl
  · intro h
    have hne : (c.notes.flatMap (noteBytes track_idx ppq)).isEmpty = false := by
      rw [List.isEmpty_eq_false_iff_exists_mem]
      rcases List.exists_cons_of_ne_nil h with ⟨n, rest, hcn⟩
      have h24 : (noteBytes track_idx ppq n).length = 24 := noteBytes_length _ _ _
      rcases List.exists_mem_of_length_pos (by omega :
          0 < (noteBytes track_idx ppq n).length) with ⟨b, hb⟩
      exact ⟨b, List.mem_flatMap.mpr ⟨n, by rw [hcn]; exact List.mem_cons_self _ _, hb⟩⟩
    simp [write_pattern, hne]
  · intro n _ hp hd hv
    have hpos : (n.to_ticks ppq).1 = ⌊n.position * ppq⌋ := by
      unfold Note.to_ticks
      exact pyInt_of_nonneg (mul_nonneg hp (by positivity))
    have hdur : (n.to_ticks ppq).2 = ⌊n.duration * ppq⌋ := by
      unfold Note.to_ticks
      exact pyInt_of_nonneg (mul_nonneg hd (by positivity))
    have hvel : pyByte (n.velocity * 127) = (⌊n.velocity * 127⌋).toNat := by
      unfold pyByte
      rw [pyInt_of_nonneg (mul_nonneg hv (by norm_num))]
    refine ⟨noteBytes_length _ _ _, ?_, rfl, rfl, ?_, rfl, rfl, ?_, rfl, rfl⟩
    · show le32 (n.to_ticks ppq).1.toNat = le32 (⌊n.position * ppq⌋).toNat
      rw [hpos]
    · show le32 (n.to_ticks ppq).2.toNat = le32 (⌊n.duration * ppq⌋).toNat
      rw [hdur]
    · show some (pyByte (n.velocity * 127)) = _
      rw [hvel]

/-- C2 witness: the amended theorem at a one-note clip. -/
theorem c2_note_block_witness :
    (Clip.mk "Lead clip" 0 4 [Note.mk 0 1 60 1] "" true none).notes ≠ [] ∧
    write_pattern 0 0 "Lead" (Clip.mk "Lead clip" 0 4 [Note.mk 0 1 60 1] "" true none) 96
      = [Event.newPat 1, Event.patName (patternName "Lead"
           (Clip.mk "Lead clip" 0 4 [Note.mk 0 1 60 1] "" true none)),
         Event.patNotes ([Note.mk 0 1 60 1].flatMap (noteBytes 0 96))] ∧
    (noteBytes 0 96 (Note.mk 0 1 60 1))[17]? = some (⌊(1 : ℚ) * 127⌋).toNat :=
  ⟨by decide,
   (c2_note_block 0 0 "Lead" (Clip.mk "Lead clip" 0 4 [Note.mk 0 1 60 1] "" true none) 96).2.1
     (by decide),
   ((c2_note_block 0 0 "Lead" (Clip.mk "Lead clip" 0 4 [Note.mk 0 1 60 1] "" true none) 96).2.2.2
     (Note.mk 0 1 60 1) (by decide) (by norm_num) (by norm_num) (by norm_num)).2.2.2.2.2.2.2.1⟩

end TransFluence
namespace TransFluence

/-! ## Writer event-stream structure lemmas -/

/-- A guarded plugin emission is either nothing or one `CHAN_PLUGIN` event
holding a non-empty blob. -/
theorem mapPlugin_ok_shape {g : Except Unit (List ℕ)} {evs : List Event}
    (h : g.map pluginEventIfNonempty = .ok evs) :
    evs = [] ∨ ∃ st, st ≠ [] ∧ g = .ok st ∧ evs = [Event.chanPlugin st] := by
  cases g with
  | error e => simp [Except.map] at h
  | ok st =>
    simp only [Except.map] at h
    injection h with h
    by_cases hst : st.isEmpty
    · left
      rw [← h, pluginEventIfNonempty, if_pos hst]
    · right
      refine ⟨st, by simpa using hst, rfl, ?_⟩
      rw [← h, pluginEventIfNonempty, if_neg hst]

/-- The selected plugin events of a channel: nothing, or exactly one
`CHAN_PLUGIN` event with a non-empty blob. -/
theorem channelPluginEvents_ok_shape {t : Track} {evs : List Event}
    (h : channelPluginEvents t = .ok evs) :
    evs = [] ∨ ∃ st, st ≠ [] ∧ evs = [Event.chanPlugin st] := by
  unfold channelPluginEvents at h
  split at h
  · rcases mapPlugin_ok_shape h with h' | ⟨st, hne, _, hevs⟩
    · exact Or.inl h'
    · exact Or.inr ⟨st, hne, hevs⟩
  · split at h
    · split at h
      · rcases mapPlugin_ok_shape h with h' | ⟨st, hne, _, hevs⟩
        · exact Or.inl h'
        · exact Or.inr ⟨st, hne, hevs⟩
      · injection h with h
        exact Or.inl h.symm
    · split at h
      · split at h
        · rcases mapPlugin_ok_shape h with h' | ⟨st, hne, _, hevs⟩
          · exact Or.inl h'
          · exact Or.inr ⟨st, hne, hevs⟩
        · injection h with h
          exact Or.inl h.symm
      · split at h
        · rcases mapPlugin_ok_shape h with h' | ⟨st, hne, _, hevs⟩
          · exact Or.inl h'
          · exact Or.inr ⟨st, hne, hevs⟩
        · injection h with h
          exact Or.inl h.symm

/-- The events of one channel record: the four fixed header events followed
by the selected plugin events. -/
theorem writeChannelEvents_ok_shape {i : ℕ} {t : Track} {evs : List Event}
    (h : writeChannelEvents i t = .ok evs) :
    ∃ pevs, channelPluginEvents t = .ok pevs ∧
      (pevs = [] ∨ ∃ st, st ≠ [] ∧ pevs = [Event.chanPlugin st]) ∧
      evs = [Event.newChan i, Event.chanName t.name,
             Event.vol (min 128 (max 0 (pyInt (t.volume * 100)))),
             Event.pan (min 128 (max 0 (pyInt ((t.pan + 1) * 64))))] ++ pevs := by
  unfold writeChannelEvents at h
  cases hp : channelPluginEvents t with
  | error e => rw [hp] at h; simp [Except.map] at h
  | ok pevs =>
    rw [hp] at h
    simp only [Except.map] at h
    injection h with h
    exact ⟨pevs, rfl, channelPluginEvents_ok_shape hp, h.symm⟩

end TransFluence
namespace TransFluence

/-- No channel-record event carries the tempo tag (66), the pattern-start
tag (65) or the pattern-name tag (193). -/
theorem writeChannelEvents_no_global_tags {i : ℕ} {t : Track} {evs : List Event}
    (h : writeChannelEvents i t = .ok evs) :
    evs.countP (fun e => e.tag == 66) = 0 ∧
    evs.countP (fun e => e.tag == 65) = 0 ∧
    evs.countP (fun e => e.tag == 193) = 0 := by
  rcases writeChannelEvents_ok_shape h with ⟨pevs, _, hshape, hevs⟩
  subst hevs
  rcases hshape with h' | ⟨st, _, h'⟩ <;> subst h' <;>
    refine ⟨?_, ?_, ?_⟩ <;> rfl

/-- The channel loop emits no tempo, pattern-start or pattern-name events. -/
theorem writeChannels_no_global_tags :
    ∀ (ts : List Track) (i : ℕ) (evs : List Event),
      writeChannels i ts = .ok evs →
      evs.countP (fun e => e.tag == 66) = 0 ∧
      evs.countP (fun e => e.tag == 65) = 0 ∧
      evs.countP (fun e => e.tag == 193) = 0 := by
  intro ts
  induction ts with
  | nil =>
    intro i evs h
    unfold writeChannels at h
    injection h with h
    subst h
    exact ⟨rfl, rfl, rfl⟩
  | cons t rest ih =>
    intro i evs h
    unfold writeChannels at h
    cases h1 : writeChannelEvents i t with
    | error e => rw [h1] at h; cases h
    | ok evs1 =>
      rw [h1] at h
      cases h2 : writeChannels (i + 1) rest with
      | error e => rw [h2] at h; cases h
      | ok evs2 =>
        rw [h2] at h
        injection h with h
        subst h
        have hl := writeChannelEvents_no_global_tags h1
        have hr := ih (i + 1) evs2 h2
        refine ⟨?_, ?_, ?_⟩ <;>
          rw [List.countP_append] <;> omega

/-- A single pattern record: no tempo event, exactly one pattern-start
event carrying `pattern_idx + 1`, exactly one pattern-name event. -/
theorem write_pattern_tags (pattern_idx track_idx : ℕ) (nm : String) (c : Clip)
    (ppq : ℕ) :
    (write_pattern pattern_idx track_idx nm c ppq).countP (fun e => e.tag == 66) = 0 ∧
    (write_pattern pattern_idx track_idx nm c ppq).countP (fun e => e.tag == 64) = 0 := by
  simp only [write_pattern]
  by_cases hne : (c.notes.flatMap (noteBytes track_idx ppq)).isEmpty
  · rw [if_pos hne]
    exact ⟨rfl, rfl⟩
  · rw [if_neg hne]
    exact ⟨rfl, rfl⟩

/-- The pattern loop emits no tempo events and no channel-start events. -/
theorem writePatterns_no_tempo (ppq : ℕ) :
    ∀ (l : List (ℕ × String × Clip)) (pc : ℕ),
      (writePatterns ppq pc l).countP (fun e => e.tag == 66) = 0 ∧
      (writePatterns ppq pc l).countP (fun e => e.tag == 64) = 0 := by
  intro l
  induction l with
  | nil => intro pc; exact ⟨rfl, rfl⟩
  | cons x rest ih =>
    intro pc
    cases x with
    | mk ti rest' =>
      cases rest' with
      | mk nm c =>
        unfold writePatterns
        have h1 := write_pattern_tags pc ti nm c ppq
        have h2 := ih (pc + 1)
        constructor <;> rw [List.countP_append] <;> omega

/-- The playlist block contains no tempo or channel-start events. -/
theorem writePlaylist_no_tempo (items : List PlaylistItem) :
    (writePlaylist items).countP (fun e => e.tag == 66) = 0 ∧
    (writePlaylist items).countP (fun e => e.tag == 64) = 0 := by
  unfold writePlaylist
  by_cases h : items.isEmpty
  · rw [if_pos h]; exact ⟨rfl, rfl⟩
  · rw [if_neg h]; exact ⟨rfl, rfl⟩

end TransFluence
namespace TransFluence

/-! ## Claim C3 — single tempo event, placed before channels -/

/-- C3: the writer's event stream carries exactly one tempo event (tag 66),
every channel-start event (tag 64) comes after it, and a pattern record
never contains a tempo event. -/
theorem c3_single_tempo_event (p : TransProj) (evs : List Event)
    (h : buildFLP p = .ok evs) :
    evs.countP (fun e => e.tag == 66) = 1 ∧
    (∀ (j c : ℕ), evs[j]? = some (Event.newChan c) →
       ∃ (i : ℕ) (b : ℤ), i < j ∧ evs[i]? = some (Event.tempo b)) ∧
    (∀ (pattern_idx track_idx : ℕ) (nm : String) (c : Clip) (ppq : ℕ),
       (write_pattern pattern_idx track_idx nm c ppq).countP
         (fun e => e.tag == 66) = 0) := by
  simp only [buildFLP] at h
  split at h
  · cases h
  · next chans heq =>
    injection h with h
    subst h
    refine ⟨?_, ?_, ?_⟩
    · have hc := (writeChannels_no_global_tags _ _ _ heq).1
      have hp := (writePatterns_no_tempo (if p.ppq = 0 then 960 else p.ppq)
        (midiClipsFrom 0 (p.tracks.map normalize_track_plugins)) 0).1
      have hl := (writePlaylist_no_tempo
        (playlistItemsFrom (if p.ppq = 0 then 960 else p.ppq) 0
          (midiClipsFrom 0 (p.tracks.map normalize_track_plugins)))).1
      have ht : (if p.name = "" then ([] : List Event)
          else [Event.title p.name]).countP (fun e => e.tag == 66) = 0 := by
        by_cases hn : p.name = ""
        · rw [if_pos hn]; rfl
        · rw [if_neg hn]; rfl
      simp only [List.countP_append]
      rw [hc, hp, hl, ht]
      rfl
    · intro j c hj
      match j with
      | 0 => exact absurd hj (by simp)
      | 1 => exact absurd hj (by simp)
      | 2 => exact absurd hj (by simp)
      | j + 3 => exact ⟨2, pyInt p.tempo, by omega, by simp⟩
    · intro pattern_idx track_idx nm c ppq
      exact (write_pattern_tags pattern_idx track_idx nm c ppq).1

/-- A small end-to-end project: one MIDI track with one one-note clip. -/
def demoProj : TransProj :=
  { name := "Demo", tempo := 128, ppq := 96,
    tracks := [{ name := "Lead",
                 clips := [{ name := "A", start := 0, duration := 4,
                             notes := [Note.mk 0 1 60 1] }] }] }

/-- The event stream the writer produces for `demoProj`. -/
def demoEvents : List Event := (buildFLP demoProj).toOption.getD []

/-- C3 witness: the theorem applied to the demo project. -/
theorem c3_single_tempo_event_witness :
    buildFLP demoProj = .ok demoEvents ∧
    demoEvents.countP (fun e => e.tag == 66) = 1 :=
  ⟨rfl, (c3_single_tempo_event demoProj demoEvents rfl).1⟩

end TransFluence
namespace TransFluence

/-! ## Claim C4 — pattern records and indices -/

/-- The index payload of a pattern-start event. -/
def newPatIdx : Event → Option ℕ
  | .newPat i => some i
  | _ => none

/-- The payload of a pattern-name event. -/
def patNameOf : Event → Option String
  | .patName s => some s
  | _ => none

/-- The pattern-start indices of the pattern loop are consecutive, starting
one above the running pattern counter. -/
theorem writePatterns_newPatIdx (ppq : ℕ) :
    ∀ (l : List (ℕ × String × Clip)) (pc : ℕ),
      (writePatterns ppq pc l).filterMap newPatIdx = List.range' (pc + 1) l.length := by
  intro l
  induction l with
  | nil => intro pc; rfl
  | cons x rest ih =>
    intro pc
    cases x with
    | mk ti rest' =>
      cases rest' with
      | mk nm c =>
        show (write_pattern pc ti nm c ppq ++ writePatterns ppq (pc + 1) rest).filterMap
            newPatIdx = _
        rw [List.filterMap_append, ih (pc + 1)]
        have hpat : (write_pattern pc ti nm c ppq).filterMap newPatIdx = [pc + 1] := by
          simp only [write_pattern]
          by_cases hne : (c.notes.flatMap (noteBytes ti ppq)).isEmpty
          · rw [if_pos hne]; rfl
          · rw [if_neg hne]; rfl
        rw [hpat]
        rfl

/-- The pattern-name payloads of the pattern loop list the walked clips in
order. -/
theorem writePatterns_patNames (ppq : ℕ) :
    ∀ (l : List (ℕ × String × Clip)) (pc : ℕ),
      (writePatterns ppq pc l).filterMap patNameOf
        = l.map (fun x => patternName x.2.1 x.2.2) := by
  intro l
  induction l with
  | nil => intro pc; rfl
  | cons x rest ih =>
    intro pc
    cases x with
    | mk ti rest' =>
      cases rest' with
      | mk nm c =>
        show (write_pattern pc ti nm c ppq ++ writePatterns ppq (pc + 1) rest).filterMap
            patNameOf = _
        rw [List.filterMap_append, ih (pc + 1)]
        have hpat : (write_pattern pc ti nm c ppq).filterMap patNameOf
            = [patternName nm c] := by
          simp only [write_pattern]
          by_cases hne : (c.notes.flatMap (noteBytes ti ppq)).isEmpty
          · rw [if_pos hne]; rfl
          · rw [if_neg hne]; rfl
        rw [hpat]
        rfl

/-- Channel records contain no pattern-start and no pattern-name events. -/
theorem writeChannels_no_pattern_events :
    ∀ (ts : List Track) (i : ℕ) (evs : List Event),
      writeChannels i ts = .ok evs →
      evs.filterMap newPatIdx = [] ∧ evs.filterMap patNameOf = [] := by
  intro ts
  induction ts with
  | nil =>
    intro i evs h
    unfold writeChannels at h
    injection h with h
    subst h
    exact ⟨rfl, rfl⟩
  | cons t rest ih =>
    intro i evs h
    unfold writeChannels at h
    cases h1 : writeChannelEvents i t with
    | error e => rw [h1] at h; cases h
    | ok evs1 =>
      rw [h1] at h
      cases h2 : writeChannels (i + 1) rest with
      | error e => rw [h2] at h; cases h
      | ok evs2 =>
        rw [h2] at h
        injection h with h
        subst h
        have hr := ih (i + 1) evs2 h2
        rcases writeChannelEvents_ok_shape h1 with ⟨pevs, _, hshape, hevs⟩
        subst hevs
        rcases hshape with h' | ⟨st, _, h'⟩ <;> subst h' <;>
          constructor <;> rw [List.filterMap_append] <;>
          simp only [hr.1, hr.2] <;> rfl

/-- Normalization does not change which clips the pattern loop walks. -/
theorem midiClipsFrom_map_normalize :
    ∀ (ts : List Track) (i : ℕ),
      midiClipsFrom i (ts.map normalize_track_plugins) = midiClipsFrom i ts := by
  intro ts
  induction ts with
  | nil => intro i; rfl
  | cons t rest ih =>
    intro i
    show ((normalize_track_plugins t).clips.filter (fun c => c.is_midi)).map
          (fun c => (i, (normalize_track_plugins t).name, c))
        ++ midiClipsFrom (i + 1) (rest.map normalize_track_plugins) = _
    rw [(normalize_preserves_fields t).1, (normalize_preserves_fields t).2.2.2.2.2.2.1,
        ih (i + 1)]
    rfl

/-- The pattern loop walks exactly the MIDI clips, one entry per clip. -/
theorem midiClipsFrom_length :
    ∀ (ts : List Track) (i : ℕ),
      (midiClipsFrom i ts).length
        = (ts.map (fun t => (t.clips.filter (fun c => c.is_midi)).length)).sum := by
  intro ts
  induction ts with
  | nil => intro i; rfl
  | cons t rest ih =>
    intro i
    show ((t.clips.filter (fun c => c.is_midi)).map (fun c => (i, t.name, c))
        ++ midiClipsFrom (i + 1) rest).length = _
    rw [List.length_append, List.length_map, ih (i + 1)]
    rfl

/-- C4: the writer emits exactly one pattern record per MIDI clip — audio
clips produce none — in track order then clip order, and the indices
carried by the pattern-start events are exactly `1, 2, ..., k`: one-based,
strictly increasing, gap-free and never 0. -/
theorem c4_pattern_indices (p : TransProj) (evs : List Event)
    (h : buildFLP p = .ok evs) :
    evs.filterMap newPatIdx = List.range' 1 (midiClipsFrom 0 p.tracks).length ∧
    evs.filterMap patNameOf
      = (midiClipsFrom 0 p.tracks).map (fun x => patternName x.2.1 x.2.2) ∧
    (midiClipsFrom 0 p.tracks).length
      = (p.tracks.map (fun t => (t.clips.filter (fun c => c.is_midi)).length)).sum := by
  simp only [buildFLP] at h
  split at h
  · cases h
  · next chans heq =>
    injection h with h
    subst h
    have hch := writeChannels_no_pattern_events _ _ _ heq
    have htitle : ∀ g : Event → Option ℕ, g (Event.title p.name) = none →
        ((if p.name = "" then ([] : List Event) else [Event.title p.name])).filterMap
          newPatIdx = [] := by
      intro g _
      by_cases hn : p.name = ""
      · rw [if_pos hn]; rfl
      · rw [if_neg hn]; rfl
    have htitle2 :
        ((if p.name = "" then ([] : List Event) else [Event.title p.name])).filterMap
          patNameOf = [] := by
      by_cases hn : p.name = ""
      · rw [if_pos hn]; rfl
      · rw [if_neg hn]; rfl
    have hplay : ∀ items, (writePlaylist items).filterMap newPatIdx = []
        ∧ (writePlaylist items).filterMap patNameOf = [] := by
      intro items
      unfold writePlaylist
      by_cases hi : items.isEmpty
      · rw [if_pos hi]; exact ⟨rfl, rfl⟩
      · rw [if_neg hi]; exact ⟨rfl, rfl⟩
    refine ⟨?_, ?_, midiClipsFrom_length p.tracks 0⟩
    · simp only [List.filterMap_append]
      rw [htitle newPatIdx rfl, hch.1, (hplay _).1,
          writePatterns_newPatIdx _ _ 0, midiClipsFrom_map_normalize]
      show List.filterMap newPatIdx [Event.version "21.0.3", Event.projectId 12345,
        Event.tempo (pyInt p.tempo)] ++ [] ++ [] ++ _ ++ [] = _
      simp [newPatIdx]
    · simp only [List.filterMap_append]
      rw [htitle2, hch.2, (hplay _).2,
          writePatterns_patNames _ _ 0, midiClipsFrom_map_normalize]
      show List.filterMap patNameOf [Event.version "21.0.3", Event.projectId 12345,
        Event.tempo (pyInt p.tempo)] ++ [] ++ [] ++ _ ++ [] = _
      simp [patNameOf]

/-- C4 witness: the theorem applied to the demo project. -/
theorem c4_pattern_indices_witness :
    buildFLP demoProj = .ok demoEvents ∧
    demoEvents.filterMap newPatIdx
      = List.range' 1 (midiClipsFrom 0 demoProj.tracks).length :=
  ⟨rfl, (c4_pattern_indices demoProj demoEvents rfl).1⟩

end TransFluence
namespace TransFluence

/-! ## Claim C5 — plugin-state selection in the channel record -/

/-- A MIDI track with no instrument whose only rack is a (non-drum)
effect-group rack. -/
def c5Track : Track :=
  { name := "T"
    clips := [{ name := "M", start := 0, duration := 4, notes := [Note.mk 0 1 60 1] }]
    racks := [{ name := "FX", rack_type := some "AudioEffectGroupDevice",
                plugins := [{ name := "Reverb" }] }] }

/-- C5 counterexample: a track that carries MIDI content, has no
instrument, no drum rack and no audio clip — by the claimed priority the
default basic-oscillator blob (which is non-empty) should be written — yet
the channel gets no plugin-state event at all: the `elif track.racks:`
branch swallows the case as soon as any rack is present. -/
theorem c5_counterexample_rack_blocks_default :
    c5Track.instrument = none ∧
    (∀ r ∈ c5Track.racks, r.is_drum_rack = false) ∧
    c5Track.has_midi = true ∧
    c5Track.has_audio = false ∧
    (generate_3xosc_state 1 0 0 0).isEmpty = false ∧
    channelPluginEvents c5Track = .ok [] := by
  refine ⟨rfl, by decide, by decide, by decide, rfl, rfl⟩


/-- A clip found by the audio-clip search proves the track has audio. -/
theorem firstAudio_some_has_audio {t : Track} {c : Clip}
    (h : firstAudioClipWithPath t = some c) : t.has_audio = true := by
  have hm := List.mem_of_find?_eq_some h
  have hp := List.find?_some h
  simp only [Bool.and_eq_true] at hp
  unfold Track.has_audio
  rw [List.any_eq_true]
  exact ⟨c, hm, hp.1⟩

/-- `PluginStateFactory.generate('FPC', pads=...)` dispatches to the kit
encoder. -/
theorem factoryGenerate_fpc (pads : List FpcPad) :
    factoryGenerate "FPC" (.fpcArgs pads) = .ok (generate_fpc_state pads) := rfl

/-- `PluginStateFactory.generate('Sampler', sample_path=..., ...)`
dispatches to the sampler encoder. -/
theorem factoryGenerate_sampler (p : String) (v pn : ℚ) :
    factoryGenerate "Sampler" (.samplerArgs p v pn)
      = .ok (generate_sampler_state p v pn) := rfl

/-- `PluginStateFactory.generate('3xOsc')` dispatches to the oscillator
encoder with its defaults. -/
theorem factoryGenerate_3xosc :
    factoryGenerate "3xOsc" .noArgs = .ok (generate_3xosc_state 1 0 0 0) := rfl

/-- `_generate_drum_rack_state` always encodes the first 16 pads as a kit
blob. -/
theorem generate_drum_rack_state_eq (rack : Rack) :
    generate_drum_rack_state rack
      = .ok (generate_fpc_state ((rack.drum_pads.take 16).map
          (fun p => ⟨p.sample_path, p.volume, p.pan, 1/2⟩))) := rfl

/-- Full case analysis of the plugin-state selection of `_write_channel`. -/
theorem channelPluginEvents_cases (t : Track) (evs : List Event)
    (h : channelPluginEvents t = .ok evs) :
    (∃ ins, t.instrument = some ins ∧
       ∃ st, generate_plugin_state (ableton_to_fl ins.name true ins.device_type) t
               (map_plugin_params ins) = .ok st ∧ evs = pluginEventIfNonempty st) ∨
    (t.instrument = none ∧ ∃ r, t.racks.find? (fun r => r.is_drum_rack) = some r ∧
       evs = pluginEventIfNonempty (generate_fpc_state ((r.drum_pads.take 16).map
               (fun p => ⟨p.sample_path, p.volume, p.pan, 1/2⟩)))) ∨
    (t.instrument = none ∧ t.racks ≠ [] ∧
       t.racks.find? (fun r => r.is_drum_rack) = none ∧ evs = []) ∨
    (t.instrument = none ∧ t.racks = [] ∧
       ∃ c, firstAudioClipWithPath t = some c ∧
         evs = pluginEventIfNonempty (generate_sampler_state c.audio_path t.volume
                 ((t.pan + 1) / 2))) ∨
    (t.instrument = none ∧ t.racks = [] ∧ t.has_audio = true ∧
       firstAudioClipWithPath t = none ∧ evs = []) ∨
    (t.instrument = none ∧ t.racks = [] ∧ t.has_audio = false ∧
       t.has_midi = true ∧ evs = pluginEventIfNonempty (generate_3xosc_state 1 0 0 0)) ∨
    (t.instrument = none ∧ t.racks = [] ∧ t.has_audio = false ∧
       t.has_midi = false ∧ evs = []) := by
  unfold channelPluginEvents at h
  split at h
  · next ins hins =>
    left
    cases hg : generate_plugin_state (ableton_to_fl ins.name true ins.device_type) t
        (map_plugin_params ins) with
    | error e => rw [hg] at h; cases h
    | ok st =>
      rw [hg] at h
      simp only [Except.map] at h
      injection h with h
      exact ⟨ins, hins, st, hg, h.symm⟩
  · next hins =>
    split at h
    · next r0 rs hracks =>
      split at h
      · next rack hfind =>
        right; left
        rw [generate_drum_rack_state_eq] at h
        simp only [Except.map] at h
        injection h with h
        exact ⟨hins, rack, hfind, h.symm⟩
      · next hfind =>
        right; right; left
        injection h with h
        exact ⟨hins, by rw [hracks]; simp, hfind, h.symm⟩
    · next hracks =>
      split at h
      · next haud =>
        split at h
        · next c hfa =>
          right; right; right; left
          rw [factoryGenerate_sampler] at h
          simp only [Except.map] at h
          injection h with h
          exact ⟨hins, hracks, c, hfa, h.symm⟩
        · next hfa =>
          right; right; right; right; left
          injection h with h
          exact ⟨hins, hracks, haud, hfa, h.symm⟩
      · next haud =>
        split at h
        · next hmidi =>
          right; right; right; right; right; left
          rw [factoryGenerate_3xosc] at h
          simp only [Except.map] at h
          injection h with h
          exact ⟨hins, hracks, by simpa using haud, hmidi, h.symm⟩
        · next hmidi =>
          right; right; right; right; right; right
          injection h with h
          exact ⟨hins, hracks, by simpa using haud, by simpa using hmidi, h.symm⟩

/-- C5 (amended): each channel record carries at most one plugin-state
event and any written blob is non-empty, but the selection keys on
presence, not applicability: (1) an explicit instrument; (2) otherwise, if
the track has any rack, the first drum rack's kit blob — and nothing at
all when no rack is a drum rack, even for a MIDI track; (3) otherwise, if
the track has any audio clip, a sampler blob for the first audio clip with
a sample path — and nothing when none has a path; (4) only when the track
has neither instrument, nor racks, nor audio clips does MIDI content get
the default basic-oscillator blob.  In every case the event is written iff
the selected encoder produced a non-empty blob
(`pluginEventIfNonempty`). -/
theorem c5_plugin_state_selection (t : Track) (evs : List Event)
    (h : channelPluginEvents t = .ok evs) :
    evs.countP (fun e => e.tag == 205) ≤ 1 ∧
    (∀ st, Event.chanPlugin st ∈ evs → st ≠ []) ∧
    (∀ ins, t.instrument = some ins →
       ∃ st, generate_plugin_state (ableton_to_fl ins.name true ins.device_type) t
               (map_plugin_params ins) = .ok st ∧
             evs = pluginEventIfNonempty st) ∧
    (t.instrument = none → ∀ r, t.racks.find? (fun r => r.is_drum_rack) = some r →
       evs = pluginEventIfNonempty (generate_fpc_state ((r.drum_pads.take 16).map
               (fun p => ⟨p.sample_path, p.volume, p.pan, 1/2⟩)))) ∧
    (t.instrument = none → t.racks ≠ [] →
       t.racks.find? (fun r => r.is_drum_rack) = none → evs = []) ∧
    (t.instrument = none → t.racks = [] → ∀ c, firstAudioClipWithPath t = some c →
       evs = pluginEventIfNonempty (generate_sampler_state c.audio_path t.volume
               ((t.pan + 1) / 2))) ∧
    (t.instrument = none → t.racks = [] → t.has_audio = true →
       firstAudioClipWithPath t = none → evs = []) ∧
    (t.instrument = none → t.racks = [] → t.has_audio = false → t.has_midi = true →
       evs = pluginEventIfNonempty (generate_3xosc_state 1 0 0 0)) ∧
    (t.instrument = none → t.racks = [] → t.has_audio = false → t.has_midi = false →
       evs = []) := by
  have hshape := channelPluginEvents_ok_shape h
  have hcases := channelPluginEvents_cases t evs h
  refine ⟨?_, ?_, ?_, ?_, ?_, ?_, ?_, ?_, ?_⟩
  · rcases hshape with h' | ⟨st, _, h'⟩ <;> subst h'
    · simp
    · simp [List.countP_cons, Event.tag]
  · intro st hmem
    rcases hshape with h' | ⟨st', hne, h'⟩
    · subst h'; cases hmem
    · subst h'
      have heq := List.mem_singleton.mp hmem
      injection heq with heq
      rw [heq]; exact hne
  · intro ins hins
    rcases hcases with ⟨ins', hins', st, hg, hevs⟩ | ⟨hn, _⟩ | ⟨hn, _⟩ | ⟨hn, _⟩ |
      ⟨hn, _⟩ | ⟨hn, _⟩ | ⟨hn, _⟩
    · rw [hins] at hins'
      injection hins' with he
      subst he
      exact ⟨st, hg, hevs⟩
    all_goals rw [hins] at hn; cases hn
  · intro hins r hfind
    rcases hcases with ⟨ins', hins', _⟩ | ⟨_, r', hfind', hevs⟩ |
      ⟨_, _, hfind', _⟩ | ⟨_, hracks', _⟩ | ⟨_, hracks', _⟩ |
      ⟨_, hracks', _⟩ | ⟨_, hracks', _⟩
    · rw [hins] at hins'; cases hins'
    · rw [hfind] at hfind'
      injection hfind' with he
      subst he
      exact hevs
    · rw [hfind] at hfind'; cases hfind'
    all_goals rw [hracks'] at hfind; exact absurd hfind (by simp)
  · intro hins hne hfind
    rcases hcases with ⟨ins', hins', _⟩ | ⟨_, r', hfind', _⟩ |
      ⟨_, _, _, hevs⟩ | ⟨_, hracks', _⟩ | ⟨_, hracks', _⟩ |
      ⟨_, hracks', _⟩ | ⟨_, hracks', _⟩
    · rw [hins] at hins'; cases hins'
    · rw [hfind] at hfind'; cases hfind'
    · exact hevs
    all_goals exact absurd hracks' hne
  · intro hins hracks c hfa
    rcases hcases with ⟨ins', hins', _⟩ | ⟨_, r', hfind', _⟩ |
      ⟨_, hne', _⟩ | ⟨_, _, c', hfa', hevs⟩ | ⟨_, _, _, hfa', _⟩ |
      ⟨_, _, haud', _⟩ | ⟨_, _, haud', _⟩
    · rw [hins] at hins'; cases hins'
    · rw [hracks] at hfind'; exact absurd hfind' (by simp)
    · exact absurd hracks hne'
    · rw [hfa] at hfa'
      injection hfa' with he
      subst he
      exact hevs
    · rw [hfa] at hfa'; cases hfa'
    all_goals rw [firstAudio_some_has_audio hfa] at haud'; cases haud'
  · intro hins hracks haud hfa
    rcases hcases with ⟨ins', hins', _⟩ | ⟨_, r', hfind', _⟩ |
      ⟨_, hne', _⟩ | ⟨_, _, c', hfa', _⟩ | ⟨_, _, _, _, hevs⟩ |
      ⟨_, _, haud', _⟩ | ⟨_, _, haud', _⟩
    · rw [hins] at hins'; cases hins'
    · rw [hracks] at hfind'; exact absurd hfind' (by simp)
    · exact absurd hracks hne'
    · rw [hfa] at hfa'; cases hfa'
    · exact hevs
    all_goals rw [haud] at haud'; cases haud'
  · intro hins hracks haud hmidi
    rcases hcases with ⟨ins', hins', _⟩ | ⟨_, r', hfind', _⟩ |
      ⟨_, hne', _⟩ | ⟨_, _, c', hfa', _⟩ | ⟨_, _, haud', _⟩ |
      ⟨_, _, _, _, hevs⟩ | ⟨_, _, _, hmidi', _⟩
    · rw [hins] at hins'; cases hins'
    · rw [hracks] at hfind'; exact absurd hfind' (by simp)
    · exact absurd hracks hne'
    · rw [firstAudio_some_has_audio hfa'] at haud; cases haud
    · rw [haud] at haud'; cases haud'
    · exact hevs
    · rw [hmidi] at hmidi'; cases hmidi'
  · intro hins hracks haud hmidi
    rcases hcases with ⟨ins', hins', _⟩ | ⟨_, r', hfind', _⟩ |
      ⟨_, hne', _⟩ | ⟨_, _, c', hfa', _⟩ | ⟨_, _, haud', _⟩ |
      ⟨_, _, _, hmidi', _⟩ | ⟨_, _, _, _, hevs⟩
    · rw [hins] at hins'; cases hins'
    · rw [hracks] at hfind'; exact absurd hfind' (by simp)
    · exact absurd hracks hne'
    · rw [firstAudio_some_has_audio hfa'] at haud; cases haud
    · rw [haud] at haud'; cases haud'
    · rw [hmidi] at hmidi'; cases hmidi'
    · exact hevs

/-- A bare MIDI track: no instrument, no racks, no audio. -/
def c5MidiTrack : Track :=
  { name := "Solo", clips := [{ name := "B", start := 0, duration := 4 }] }

/-- C5 witness: the amended theorem at a bare MIDI track. -/
theorem c5_plugin_state_selection_witness :
    channelPluginEvents c5MidiTrack
      = .ok [Event.chanPlugin (generate_3xosc_state 1 0 0 0)] ∧
    ([Event.chanPlugin (generate_3xosc_state 1 0 0 0)]).countP
      (fun e => e.tag == 205) ≤ 1 :=
  ⟨rfl, (c5_plugin_state_selection c5MidiTrack
          [Event.chanPlugin (generate_3xosc_state 1 0 0 0)] rfl).1⟩

end TransFluence
